import Mathlib

/-!
Shallow embedding of the core of the `sistemas` transit simulation
(message bus, resource arbiter, station / vehicle / maintenance state
machines, Contract Net Protocol) together with theorems checking the
natural-language specification against the code.

Every definition is translated from the Python source under `src/`;
the file and function of origin are given in each doc comment.
-/

namespace Sistemas

/-- Integer grid coordinate, from `src/src/environment/city.py`, class
`Position` (a frozen dataclass with fields `x y : int`). -/
structure Pos where
  x : Int
  y : Int
deriving DecidableEq, Repr

/-! ## Resource arbiter: `src/src/environment/base_manager.py`, class `BaseManager`

The maintenance base holds `tools = 8` and `tow_hooks = 2` totals
(`BaseManager.__init__`), and `resources_in_use` starts at zero.
`request_resources` / `release_resources` are the check-and-reserve pair. -/

/-- The slice of `BaseManager` state that the resource pool uses:
the fixed totals of the maintenance base and the two in-use counters. -/
structure ResourcePool where
  toolsTotal : Int
  towHooksTotal : Int
  toolsInUse : Int
  towHooksInUse : Int
deriving DecidableEq, Repr

/-- Initial pool of `BaseManager.__init__`: maintenance base with
8 tools and 2 tow hooks, nothing in use. -/
def initMaintenancePool : ResourcePool :=
  { toolsTotal := 8, towHooksTotal := 2, toolsInUse := 0, towHooksInUse := 0 }

/-- `BaseManager.request_resources(tools, tow_hooks)`: computes the two
availabilities, and only if both requested amounts fit does it add them to
the in-use counters; otherwise it returns `False` leaving state unchanged. -/
def request_resources (tools towHooks : Int) (s : ResourcePool) : Bool × ResourcePool :=
  let availableTools := s.toolsTotal - s.toolsInUse
  let availableTowHooks := s.towHooksTotal - s.towHooksInUse
  if tools ≤ availableTools ∧ towHooks ≤ availableTowHooks then
    (true, { s with toolsInUse := s.toolsInUse + tools,
                    towHooksInUse := s.towHooksInUse + towHooks })
  else
    (false, s)

/-- `BaseManager.release_resources(tools, tow_hooks)`: subtracts the amounts
from the in-use counters, clamping at zero (`max(0, in_use - tools)`). -/
def release_resources (tools towHooks : Int) (s : ResourcePool) : ResourcePool :=
  { s with toolsInUse := max 0 (s.toolsInUse - tools),
           towHooksInUse := max 0 (s.towHooksInUse - towHooks) }

/-- Pool states reachable from the initial maintenance pool by sequences of
`request_resources` / `release_resources` calls with non-negative amounts
(every call site passes the constants 0, 1, 2 or 5:
`tools_for_tire = 2`, `tools_for_engine = 5`, `tow_hooks_for_tow = 1`). -/
inductive PoolReachable : ResourcePool → Prop
  | init : PoolReachable initMaintenancePool
  | request (tools towHooks : Int) (ht : 0 ≤ tools) (hh : 0 ≤ towHooks) {s : ResourcePool} :
      PoolReachable s → PoolReachable (request_resources tools towHooks s).2
  | release (tools towHooks : Int) (ht : 0 ≤ tools) (hh : 0 ≤ towHooks) {s : ResourcePool} :
      PoolReachable s → PoolReachable (release_resources tools towHooks s)

/-! ## Station escalation guard: `src/src/agents/station_agent.py`

`StationAgent.request_additional_service` initiates a Contract Net
negotiation; its only duplicate-suppression guard is
`if len(self.requested_vehicles) > 0: return`.  The relevant station state
is the `requested_vehicles` set, the initiator's `active_contracts`
map and the `service_requests_sent` counter. -/

/-- The slice of `StationAgent` state involved in the overcrowding
escalation: `requested_vehicles` (a set of vehicle ids),
`cnp_initiator.active_contracts` (we record the contract ids, in
insertion order, as Python dicts do) and `service_requests_sent`. -/
structure StationCNPState where
  requestedVehicles : List String
  activeContracts : List String
  serviceRequestsSent : Nat
deriving DecidableEq, Repr

/-- Fresh station: `requested_vehicles = set()`, no contracts, zero counters
(`StationAgent.__init__` and `ContractNetInitiator.__init__`). -/
def initStationCNPState : StationCNPState :=
  { requestedVehicles := [], activeContracts := [], serviceRequestsSent := 0 }

/-- `StationAgent.request_additional_service` (state effects only):
return immediately when `len(requested_vehicles) > 0`; return when no
nearby vehicles; otherwise `ContractNetInitiator.initiate_cfp` stores the
new contract in `active_contracts` (status `cfp_sent`) and the station
increments `service_requests_sent`.  Nothing is ever added to
`requested_vehicles` (no call site in the repository adds to it). -/
def request_additional_service (nearbyVehicles : List String) (newContractId : String)
    (s : StationCNPState) : StationCNPState :=
  if s.requestedVehicles.length > 0 then s
  else if nearbyVehicles.isEmpty then s
  else
    { s with activeContracts := s.activeContracts ++ [newContractId],
             serviceRequestsSent := s.serviceRequestsSent + 1 }

/-! ## Station boarding: `src/src/agents/station_agent.py`,
`StationAgent.handle_vehicle_arrived` -/

/-- A queued passenger as the station stores it (we keep the fields the
boarding reply uses: the id and the destination already converted to a
station id string). -/
structure QueuedPassenger where
  pid : String
  destination : String
deriving DecidableEq, Repr

/-- The boarding loop of `handle_vehicle_arrived`:
`for _ in range(boarding_count): if self.passenger_queue:
p = queue.pop(0); boarding_passengers.append({id, destination})`. -/
def boardingLoop : Nat → List QueuedPassenger → List (String × String) →
    List QueuedPassenger × List (String × String)
  | 0, queue, acc => (queue, acc)
  | Nat.succ k, queue, acc =>
    match queue with
    | [] => (queue, acc)
    | p :: rest => boardingLoop k rest (acc ++ [(p.pid, p.destination)])

/-- The `MESSAGE_TYPES` dict of `src/src/config/settings.py` (lines
70-84), verbatim.  Note the keys it does NOT contain: `VEHICLE_ARRIVED`,
`BOARDING_LIST`, `MAINTENANCE_COMPLETED`, `BOARDING_CONFIRMED`,
`TRIP_COMPLETED` and `CONTRACT_NET_PROPOSAL` (it defines
`CONTRACT_NET_PROPOSE` instead), although the agents index it with those
keys. -/
def MESSAGE_TYPES : List (String × String) :=
  [("PASSENGER_REQUEST", "passenger_request"),
   ("VEHICLE_CAPACITY", "vehicle_capacity"),
   ("STATION_DEMAND", "station_demand"),
   ("BREAKDOWN_ALERT", "breakdown_alert"),
   ("MAINTENANCE_REQUEST", "maintenance_request"),
   ("ROUTE_UPDATE", "route_update"),
   ("CONTRACT_NET_CFP", "cfp"),
   ("CONTRACT_NET_PROPOSE", "propose"),
   ("CONTRACT_NET_ACCEPT", "accept"),
   ("CONTRACT_NET_REJECT", "reject"),
   ("CONTRACT_NET_INFORM", "inform"),
   ("RETURN_TO_BASE", "return_to_base"),
   ("DEPLOY_FROM_BASE", "deploy_from_base")]

/-- Python dict lookup `d[k]` on a string-keyed dict: `some` value when
the key is present, `none` standing for the `KeyError` it raises
otherwise. -/
def dictGet (d : List (String × String)) (k : String) : Option String :=
  match d with
  | [] => none
  | e :: rest => if e.1 = k then some e.2 else dictGet rest k

/-- `StationAgent.handle_vehicle_arrived(body)`: computes
`free_capacity = max(0, capacity - occupancy)`; returns without reply when
`free_capacity <= 0` or the queue is empty; otherwise pops
`boarding_count = min(free_capacity, len(queue))` passengers FIFO and then
evaluates `MESSAGE_TYPES['BOARDING_LIST']` to send the reply.  That key is
absent from `settings.MESSAGE_TYPES`, so the lookup raises `KeyError`,
caught by the handler's own `except Exception` — the reply is never sent,
while the popped passengers stay removed from the queue.
Result: the new queue and the reply payload (`none` when no reply is
sent). -/
def handle_vehicle_arrived (capacity occupancy : Int) (queue : List QueuedPassenger) :
    List QueuedPassenger × Option (List (String × String)) :=
  let freeCapacity := max 0 (capacity - occupancy)
  if freeCapacity ≤ 0 then (queue, none)
  else if queue.length = 0 then (queue, none)
  else
    let boardingCount := min freeCapacity.toNat queue.length
    let r := boardingLoop boardingCount queue []
    match dictGet MESSAGE_TYPES "BOARDING_LIST" with
    | some _ => (r.1, some r.2)
    | none => (r.1, none)

/-! ## Contract Net Protocol: `src/src/protocols/contract_net.py`,
class `ContractNetInitiator` -/

/-- The fields of a proposal dict that `calculate_proposal_score` reads.
`capacity` and `cost` are numbers when the keys are present;
`arrivalMinutes` stands for
`(datetime.fromisoformat(proposal['estimated_arrival_time']) - now) / 60`,
the minutes until the proposed arrival at evaluation time. -/
structure CNProposal where
  capacity : Option ℚ
  arrivalMinutes : Option ℚ
  cost : Option ℚ
deriving DecidableEq, Repr

/-- The fields of a task dict that scoring reads: whether
`task['urgency'] == 'high'` (the station always sets `urgency`), and
`task.get('max_cost', 100)`. -/
structure CNTask where
  urgencyHigh : Bool
  maxCost : ℚ
deriving DecidableEq, Repr

/-- `ContractNetInitiator.calculate_proposal_score(proposal, task)`:
`capacity * 0.3` when present, plus
`max(0, 1 - t/10) * 0.4` (urgency high) or `max(0, 1 - t/20) * 0.4`
for the minutes-until-arrival `t` when present, plus
`max(0, 1 - cost/max_cost) * 0.3` when present. -/
def calculate_proposal_score (p : CNProposal) (t : CNTask) : ℚ :=
  let s1 : ℚ := match p.capacity with
    | some c => c * (3 / 10)
    | none => 0
  let s2 : ℚ := match p.arrivalMinutes with
    | some m =>
      if t.urgencyHigh then max 0 (1 - m / 10) * (4 / 10)
      else max 0 (1 - m / 20) * (4 / 10)
    | none => 0
  let s3 : ℚ := match p.cost with
    | some c => max 0 (1 - c / t.maxCost) * (3 / 10)
    | none => 0
  s1 + s2 + s3

/-- The body of `ContractNetInitiator.evaluate_proposals`: starting from
`best_proposal = None, best_score = -1`, scan the proposals (a Python dict,
iterated in insertion order = order of receipt) and keep the first proposal
whose score strictly exceeds the running best. -/
def evalStep (t : CNTask) (acc : Option String × ℚ) (sp : String × CNProposal) :
    Option String × ℚ :=
  let score := calculate_proposal_score sp.2 t
  if score > acc.2 then (some sp.1, score) else acc

/-- `ContractNetInitiator.evaluate_proposals(proposals, task)`:
returns the selected sender, or `None` when no score beat `-1`. -/
def evaluate_proposals (t : CNTask) (proposals : List (String × CNProposal)) :
    Option String :=
  (proposals.foldl (evalStep t) (none, -1)).1

/-- Contract status, the `'status'` values a contract can end in after its
deadline (`'cfp_sent'` is the open state). -/
inductive CNStatus
  | cfp_sent
  | awarded
  | failed
deriving DecidableEq, Repr

/-- The protocol messages `award_contract` sends: the acceptance carries the
contract id and `{**task, 'initiator': str(agent.jid)}`; a rejection
carries only the contract id. -/
inductive CNMessage
  | accept (recipient : String) (contractId : String) (task : CNTask) (initiator : String)
  | reject (recipient : String) (contractId : String)
deriving DecidableEq, Repr

/-- `ContractNetInitiator.award_contract(contract_id, winner)`: sends ACCEPT
to the winner with the initiator id attached to the original task, then a
REJECT to every other sender in the proposals dict, and marks the contract
`'awarded'`. -/
def award_contract (initiator contractId : String) (task : CNTask)
    (proposals : List (String × CNProposal)) (winner : String) :
    CNStatus × List CNMessage :=
  (CNStatus.awarded,
    CNMessage.accept winner contractId task initiator ::
      (proposals.filter (fun sp => sp.1 ≠ winner)).map
        (fun sp => CNMessage.reject sp.1 contractId))

/-- `ContractNetInitiator.collect_proposals(contract_id)` at the deadline:
with no proposals the contract is marked `'failed'` and nothing is sent;
otherwise the winner chosen by `evaluate_proposals` is awarded the contract
(when `evaluate_proposals` returns `None` the contract is marked
`'failed'` with nothing sent). -/
def collect_proposals (initiator contractId : String) (task : CNTask)
    (proposals : List (String × CNProposal)) : CNStatus × List CNMessage :=
  if proposals.isEmpty then (CNStatus.failed, [])
  else
    match evaluate_proposals task proposals with
    | some winner => award_contract initiator contractId task proposals winner
    | none => (CNStatus.failed, [])

/-! ## Traffic manager: `src/src/environment/traffic_manager.py`,
class `TrafficManager` -/

/-- The per-vehicle record `TrafficManager.position_occupancy[pos][vid]`:
`{'type': vehicle_type, 'direction': direction, 'broken': is_broken}`. -/
structure TrafficInfo where
  vtype : String
  direction : Int × Int
  broken : Bool
deriving DecidableEq, Repr

/-- The state the traffic manager keeps for one grid cell: the occupant
map `position_occupancy[pos]` (insertion-ordered, as Python dicts are) and
whether the cell is in `blocked_rails`. -/
structure CellState where
  occupants : List (String × TrafficInfo)
  blocked : Bool
deriving DecidableEq, Repr

/-- `TrafficManager._same_direction(dir1, dir2)`: stationary vehicles
(direction `(0, 0)`) never block; otherwise the directions are "same"
exactly when their dot product is positive. -/
def same_direction (d1 d2 : Int × Int) : Bool :=
  if d1 = (0, 0) ∨ d2 = (0, 0) then false
  else decide (d1.1 * d2.1 + d1.2 * d2.2 > 0)

/-- `TrafficManager.can_move_to_position(vehicle_id, target, type, dir)`
restricted to the target cell: an empty cell is free; a tram is refused on
a blocked rail, and otherwise refused exactly when some other tram at the
cell moves in the same direction; buses (and maintenance vehicles) always
may move. -/
def can_move_to_position (vehicleId : String) (target : CellState)
    (vehicleType : String) (direction : Int × Int) : Bool :=
  if target.occupants.isEmpty then true
  else if vehicleType = "tram" then
    if target.blocked then false
    else target.occupants.all (fun oi =>
      oi.1 = vehicleId ∨ oi.2.vtype ≠ "tram" ∨ ¬ same_direction direction oi.2.direction)
  else true

/-- Python dict assignment `d[k] = v` on an insertion-ordered association
list: an existing key keeps its position and gets the new value, a new key
is appended. -/
def dictInsert {α : Type} (l : List (String × α)) (k : String) (v : α) :
    List (String × α) :=
  if l.any (fun e => e.1 = k) then
    l.map (fun e => if e.1 = k then (k, v) else e)
  else l ++ [(k, v)]

/-- `TrafficManager.register_vehicle_position` restricted to the target
cell: stores the occupant record and, when a broken tram is registered,
adds the cell to `blocked_rails`. -/
def register_vehicle_position (vehicleId : String) (cell : CellState)
    (vehicleType : String) (direction : Int × Int) (isBroken : Bool) : CellState :=
  { occupants := dictInsert cell.occupants vehicleId
      { vtype := vehicleType, direction := direction, broken := isBroken },
    blocked := cell.blocked || (vehicleType = "tram" && isBroken) }

/-- `TrafficManager.repair_vehicle` restricted to the target cell: when
the vehicle is registered at the cell, mark it repaired and discard the
cell from `blocked_rails` — unconditionally, even if ANOTHER broken tram
still occupies the same cell. -/
def repair_vehicle (vehicleId : String) (cell : CellState) : CellState :=
  if cell.occupants.any (fun oi => oi.1 = vehicleId) then
    { occupants := cell.occupants.map (fun oi =>
        if oi.1 = vehicleId then (oi.1, { oi.2 with broken := false }) else oi),
      blocked := false }
  else cell

/-! ## Message bus: `src/src/protocols/message_bus.py`,
class `LocalMessageBus` -/

/-- `LocalMessage` without the wall-clock timestamp: sender, recipient,
body and the metadata we use (the `'type'` entry). -/
structure BusMessage where
  sender : String
  toJid : String
  body : String
  mtype : String
deriving DecidableEq, Repr

/-- The observable `LocalMessageBus` state: the per-recipient queues
`message_queues` (keys in registration order) and the `message_log`. -/
structure BusState where
  queues : List (String × List BusMessage)
  log : List BusMessage
deriving DecidableEq, Repr

/-- `LocalMessageBus.register_agent(jid)`: creates an empty inbox unless
the jid is already registered (idempotent). -/
def register_agent (bus : BusState) (jid : String) : BusState :=
  if bus.queues.any (fun q => q.1 = jid) then bus
  else { bus with queues := bus.queues ++ [(jid, [])] }

/-- `LocalMessageBus.send_message(sender, to, body, metadata)`: when the
recipient has no queue it logs a warning and returns, leaving the bus
untouched; otherwise the message is appended to `message_log` and put in
the recipient's queue.  The function is total: a send never raises. -/
def bus_send_message (bus : BusState) (senderJid toJid body mtype : String) : BusState :=
  if bus.queues.any (fun q => q.1 = toJid) then
    let m : BusMessage := { sender := senderJid, toJid := toJid, body := body, mtype := mtype }
    { queues := bus.queues.map (fun q => if q.1 = toJid then (q.1, q.2 ++ [m]) else q),
      log := bus.log ++ [m] }
  else bus

/-! ## Agent-level local routing: `src/src/agents/base_agent.py`,
`_local_queues` and `BaseTransportAgent.send_message` -/

/-- `collections.deque(maxlen=1000).append(m)`: when the deque already
holds `maxlen` items the oldest items are silently discarded to make room
for the new one. -/
def dequeAppend (maxlen : Nat) (q : List BusMessage) (m : BusMessage) : List BusMessage :=
  if q.length < maxlen then q ++ [m]
  else (q.drop (q.length + 1 - maxlen)) ++ [m]

/-- The `_local_queues` registry: jid → pending message list, keys in
creation order. -/
abbrev AgentQueues : Type := List (String × List BusMessage)

/-- `BaseTransportAgent.__init__` (local routing part): create
`_local_queues[jid] = deque(maxlen=1000)` unless present. -/
def agent_init_queue (queues : AgentQueues) (jid : String) : AgentQueues :=
  if queues.any (fun q => q.1 = jid) then queues
  else queues ++ [(jid, [])]

/-- `BaseTransportAgent.send_message(to, content, type)` (local routing
part): auto-create the recipient's deque when absent, then append with the
maxlen-1000 overflow behaviour.  Total — the send never raises. -/
def agent_send_message (queues : AgentQueues) (toJid : String) (m : BusMessage) :
    AgentQueues :=
  let queues1 := if queues.any (fun q => q.1 = toJid) then queues
                 else queues ++ [(toJid, [])]
  queues1.map (fun q => if q.1 = toJid then (q.1, dequeAppend 1000 q.2 m) else q)

/-! ## Vehicle state machine: `src/src/agents/vehicle_agent.py`,
class `VehicleAgent`

Internal float-precision coordinates are modelled with `ℝ`; the config
constants used below are `fuel_consumption_rate = 0.5`, `speed = 1` and
`MAX_BOARDING_TICKS = 3`. -/

/-- The three values of `VehicleAgent.state`. -/
inductive VState
  | EN_ROUTE
  | AT_STATION
  | BROKEN
deriving DecidableEq, Repr

/-- The three breakdown kinds (`'tire' | 'engine' | 'tow'`);
`breakdown_type = None` is `Option.none` below. -/
inductive BreakdownKind
  | tire
  | engine
  | tow
deriving DecidableEq, Repr

/-- The `VehicleAgent` fields that its tick update and message handlers
read or write (metrics counters and wall-clock timestamps are omitted;
the legacy `self.passengers` list, unused by the message-based flow, is
omitted as well). -/
structure Vehicle where
  vehicleId : String
  capacity : Int
  occupancy : Int
  passengersOnboard : List (String × String)
  fuelLevel : ℝ
  currentPosition : Pos
  floatX : ℝ
  floatY : ℝ
  state : VState
  isBroken : Bool
  breakdownType : Option BreakdownKind
  maintenanceRequested : Bool
  currentStationId : Option String
  nextStation : Option Pos
  currentStationIndex : Nat
  routeStations : List Pos
  speedModifier : ℝ
  boardingInProgress : Bool
  boardingTicks : Nat
  currentTick : Nat

/-- `Position.distance_to` (`src/src/environment/city.py`): Euclidean
distance. -/
noncomputable def Pos.distance_to (p q : Pos) : ℝ :=
  Real.sqrt ((((p.x - q.x : Int) : ℝ)) ^ 2 + (((p.y - q.y : Int) : ℝ)) ^ 2)

/-- The scan inside `VehicleAgent._recover_next_station`: first route
station (with its index) that differs from the current position. -/
def findDifferingStation : List Pos → Pos → Nat → Option (Pos × Nat)
  | [], _, _ => none
  | st :: rest, cur, idx =>
    if st.x ≠ cur.x ∨ st.y ≠ cur.y then some (st, idx)
    else findDifferingStation rest cur (idx + 1)

/-- `VehicleAgent._recover_next_station`: pick the first route station that
differs from the current position (updating the station index); if all
stations coincide with the current position, fall back to `stations[0]`;
with no route stations nothing changes. -/
def recover_next_station (v : Vehicle) : Vehicle :=
  if v.routeStations.length > 0 then
    match findDifferingStation v.routeStations v.currentPosition 0 with
    | some (st, idx) => { v with nextStation := some st, currentStationIndex := idx }
    | none => { v with nextStation := v.routeStations.head? }
  else v

/-- `VehicleAgent._move_step`: consume `fuel_consumption_rate = 0.5` fuel,
then either snap onto `next_station` when within `speed * speed_modifier`,
or advance the float position by a unit step toward it and round to the
reported integer cell.  (Mathlib's `round` and Python's `round` differ
only on exact half-integers; no theorem below depends on this branch.) -/
noncomputable def move_step (v : Vehicle) : Vehicle :=
  let v1 := if v.nextStation.isNone then recover_next_station v else v
  match v1.nextStation with
  | none => v1
  | some ns =>
    let v2 := { v1 with fuelLevel := v1.fuelLevel - 1 / 2 }
    let distanceToNext := v2.currentPosition.distance_to ns
    let movementSpeed := 1 * v2.speedModifier
    if distanceToNext ≤ movementSpeed then
      { v2 with currentPosition := ns, floatX := (ns.x : ℝ), floatY := (ns.y : ℝ) }
    else
      let dx := (ns.x : ℝ) - v2.floatX
      let dy := (ns.y : ℝ) - v2.floatY
      let distance := Real.sqrt (dx ^ 2 + dy ^ 2)
      if distance > 0 then
        let fx := v2.floatX + dx / distance * movementSpeed
        let fy := v2.floatY + dy / distance * movementSpeed
        { v2 with floatX := fx, floatY := fy,
                  currentPosition := { x := round fx, y := round fy } }
      else v2

/-- `VehicleAgent._advance_along_route`: auto-refuel to 100 when fuel is
below 30, recover a missing `next_station` (returning when that fails),
then `_move_step`. -/
noncomputable def advance_along_route (v : Vehicle) : Vehicle :=
  let v1 := if v.fuelLevel < 30 then { v with fuelLevel := 100 } else v
  let v2 := if v1.nextStation.isNone then recover_next_station v1 else v1
  if v2.nextStation.isNone then v2
  else move_step v2

/-- `VehicleAgent._has_arrived_at_station`: exact integer-cell match with
`next_station`. -/
def has_arrived_at_station (v : Vehicle) : Bool :=
  match v.nextStation with
  | none => false
  | some ns => decide (v.currentPosition.x = ns.x ∧ v.currentPosition.y = ns.y)

/-- `_get_station_id_at_position`: index of the matching city station, or a
position-derived fallback id. -/
def get_station_id_at_position (cityStations : List Pos) (p : Pos) : String :=
  match cityStations.findIdx? (fun st => st.x = p.x ∧ st.y = p.y) with
  | some idx => "station_" ++ toString idx
  | none => "station_at_" ++ toString p.x ++ "_" ++ toString p.y

/-- `VehicleAgent._alight_passengers_at_station`: delete from
`passengers_onboard` every passenger whose destination is the current
station id, decrementing `occupancy` once per deletion. -/
def alight_passengers_at_station (cityStations : List Pos) (v : Vehicle) : Vehicle :=
  let sid := get_station_id_at_position cityStations v.currentPosition
  let remaining := v.passengersOnboard.filter (fun pd => pd.2 ≠ sid)
  { v with passengersOnboard := remaining,
           occupancy := v.occupancy - (v.passengersOnboard.length - remaining.length) }

/-- `VehicleAgent._on_arrival_to_station` (state effects; the
`VEHICLE_ARRIVED` message it sends is the input of
`handle_vehicle_arrived` above): set `AT_STATION`, record the station id,
alight passengers, and start the boarding wait. -/
def on_arrival_to_station (cityStations : List Pos) (v : Vehicle) : Vehicle :=
  let v1 := { v with state := VState.AT_STATION,
                     currentStationId :=
                       some (get_station_id_at_position cityStations v.currentPosition) }
  let v2 := alight_passengers_at_station cityStations v1
  { v2 with boardingInProgress := true, boardingTicks := 0 }

/-- The bounded circular scan in `VehicleAgent._advance_to_next_station`:
starting after `idx`, find the next station index whose position differs
from the current position, giving up after `fuel` steps. -/
def advanceSearch (stations : List Pos) (cur : Pos) : Nat → Nat → Option Nat
  | _, 0 => none
  | idx, Nat.succ fuel =>
    let idx1 := (idx + 1) % stations.length
    match stations.get? idx1 with
    | some cand =>
      if cand.x ≠ cur.x ∨ cand.y ≠ cur.y then some idx1
      else advanceSearch stations cur idx1 fuel
    | none => none

/-- `VehicleAgent._advance_to_next_station`: advance the station index
circularly to the next station that differs from the current position;
after `len(stations)` failed attempts fall back to `old_index + 1`.
(The ETA update is wall-clock bookkeeping and is omitted.  On an empty
route Python would raise `ZeroDivisionError`; every route the simulation
constructs is non-empty, and we leave the vehicle unchanged there.) -/
def advance_to_next_station (v : Vehicle) : Vehicle :=
  if v.routeStations.length = 0 then v
  else
    match advanceSearch v.routeStations v.currentPosition v.currentStationIndex
        v.routeStations.length with
    | some idx =>
      { v with currentStationIndex := idx, nextStation := v.routeStations.get? idx }
    | none =>
      let idx := (v.currentStationIndex + 1) % v.routeStations.length
      { v with currentStationIndex := idx, nextStation := v.routeStations.get? idx }

/-- `VehicleAgent._depart_from_station`: back to `EN_ROUTE`, clear the
station id, advance to the next waypoint. -/
def depart_from_station (v : Vehicle) : Vehicle :=
  advance_to_next_station
    { v with state := VState.EN_ROUTE, currentStationId := none }

/-- `VehicleAgent._handle_station_stop_logic`: while boarding, count
ticks and depart after `MAX_BOARDING_TICKS = 3`; with no boarding in
progress depart immediately. -/
def handle_station_stop_logic (v : Vehicle) : Vehicle :=
  if v.boardingInProgress then
    let v1 := { v with boardingTicks := v.boardingTicks + 1 }
    if v1.boardingTicks > 3 then
      depart_from_station { v1 with boardingInProgress := false }
    else v1
  else depart_from_station v

/-- `VehicleAgent.update_vehicle_state`: validate / recover `next_station`
(stopping when unrecoverable), count the tick, then: a BROKEN vehicle
returns untouched (no movement, no fuel, no state change); an `EN_ROUTE`
vehicle advances and handles arrival; an `AT_STATION` vehicle runs the
stop logic. -/
noncomputable def update_vehicle_state (cityStations : List Pos) (v : Vehicle) : Vehicle :=
  let v0 := if v.nextStation.isNone then recover_next_station v else v
  if v0.nextStation.isNone then v0
  else
    let v1 := { v0 with currentTick := v0.currentTick + 1 }
    if v1.isBroken = true ∨ v1.state = VState.BROKEN then v1
    else if v1.state = VState.EN_ROUTE then
      let v2 := advance_along_route v1
      if has_arrived_at_station v2 then on_arrival_to_station cityStations v2 else v2
    else if v1.state = VState.AT_STATION then
      handle_station_stop_logic v1
    else v1

/-- `VehicleAgent.check_vehicle_health` (state effects; the breakdown
probability draw and the weighted kind choice are the two random inputs,
passed here as parameters): only a non-broken vehicle with a triggering
roll breaks down, setting both `is_broken` and `state = BROKEN` and the
drawn kind. -/
def check_vehicle_health (breakdownRoll : Bool) (kind : BreakdownKind) (v : Vehicle) :
    Vehicle :=
  if v.isBroken = false ∧ breakdownRoll = true then
    { v with breakdownType := some kind, isBroken := true, state := VState.BROKEN }
  else v

/-- `VehicleAgent.handle_maintenance_completed`: a message whose
`vehicle_id` differs from our own changes nothing; otherwise clear the
breakdown and return to `AT_STATION` when exactly on the
`current_station_index` route station, else `EN_ROUTE`.
(`current_station_index` is always an in-range `int`, so the Python guard
`current_station_index is not None` reduces to the route-length check.) -/
def handle_maintenance_completed (bodyVehicleId : String) (v : Vehicle) : Vehicle :=
  if bodyVehicleId ≠ v.vehicleId then v
  else
    let v1 := { v with isBroken := false, breakdownType := none,
                       maintenanceRequested := false }
    if v1.routeStations.length > 0 then
      match v1.routeStations.get? v1.currentStationIndex with
      | some stationPos =>
        if v1.currentPosition.x = stationPos.x ∧ v1.currentPosition.y = stationPos.y then
          { v1 with state := VState.AT_STATION }
        else { v1 with state := VState.EN_ROUTE }
      | none => { v1 with state := VState.EN_ROUTE }
    else { v1 with state := VState.EN_ROUTE }

/-- The boarding loop of `VehicleAgent.handle_boarding_list`: for each
listed passenger, break when `occupancy >= capacity`, else store
`passengers_onboard[pid] = {"destination": dest}` (a dict assignment:
an existing id is overwritten, not duplicated) and increment `occupancy`
unconditionally. -/
def vehicleBoardLoop : List (String × String) → Vehicle → Vehicle
  | [], v => v
  | (pid, dest) :: rest, v =>
    if v.occupancy ≥ v.capacity then v
    else
      vehicleBoardLoop rest
        { v with passengersOnboard := dictInsert v.passengersOnboard pid dest,
                 occupancy := v.occupancy + 1 }

/-- `VehicleAgent.handle_boarding_list(body)` (state effects; the
`BOARDING_CONFIRMED` sends are fire-and-forget). -/
def handle_boarding_list (passengers : List (String × String)) (v : Vehicle) : Vehicle :=
  vehicleBoardLoop passengers v

/-! ## Maintenance crew: `src/src/agents/maintenance_agent.py`,
`MaintenanceAgent.update_state`, and the demo towing loop of
`src/demo.py`, `update_simulation` -/

/-- The crew states of `MaintenanceAgent.state` (lowercase strings in the
source). -/
inductive CrewState
  | idle
  | en_route
  | repairing
  | returning_to_base
deriving DecidableEq, Repr

/-- The fields of a repair job dict that the `en_route` branch reads. -/
structure CrewJob where
  vehicleId : String
  breakdownType : BreakdownKind
  position : Pos
deriving DecidableEq, Repr

/-- The `MaintenanceAgent` fields its `en_route` tick branch touches.
`current_position` is a `Position` (the frozen dataclass), so its
coordinates are integers — the in-place float mutation the code attempts
never succeeds. -/
structure Crew where
  crewId : String
  currentPosition : Pos
  state : CrewState
  currentJob : Option CrewJob
deriving DecidableEq, Repr

/-- The `en_route` branch of `MaintenanceAgent.update_state`: compute the
Euclidean distance to the job; within `0.5` the crew snaps to the job
position and enters `repairing` — for every breakdown kind, including
`tow`; otherwise the code computes `step = 0.5 * traffic_modifier` and
executes `self.current_position.x += step` (or `.y`), an in-place field
assignment on the frozen dataclass `Position`, which raises
`FrozenInstanceError` (caught and swallowed by
`MaintenanceMainBehaviour.run`), leaving the crew unmoved.  (A missing
`current_job` would raise `TypeError` on the `job['position']` lookup.) -/
noncomputable def crew_update_en_route (c : Crew) : Except String Crew :=
  match c.currentJob with
  | none => Except.error "TypeError"
  | some job =>
    let distance := c.currentPosition.distance_to job.position
    if distance < 1 / 2 then
      Except.ok { c with currentPosition := job.position, state := CrewState.repairing }
    else
      Except.error "FrozenInstanceError"

/-- One axis-by-axis unit step of the demo simulation
(`dx = 1 if target.x > pos.x else (-1 if target.x < pos.x else 0)`, same
for `y`, applied simultaneously). -/
def demoStepToward (source target : Pos) : Pos :=
  let dx : Int := if target.x > source.x then 1 else if target.x < source.x then -1 else 0
  let dy : Int := if target.y > source.y then 1 else if target.y < source.y then -1 else 0
  { x := source.x + dx, y := source.y + dy }

/-- The broken vehicle as the demo towing branch sees it. -/
structure DemoVehicle where
  position : Pos
  isBroken : Bool
  breakdownType : Option BreakdownKind
deriving DecidableEq, Repr

/-- The demo maintenance agent fields the towing branch touches. -/
structure DemoMaint where
  position : Pos
  towingVehicle : Bool
deriving DecidableEq, Repr

/-- The `breakdown_type == 'tow'` branch of `demo.py update_simulation`:
before towing starts, step toward the broken vehicle and flip
`towing_vehicle` on contact; while towing, step toward the base entry with
the towed vehicle's position set to the crew's new position each step;
on reaching the base, repair the vehicle (clear `is_broken` and
`breakdown_type`) and release it.  (The rail-unblocking and resource
release on those transitions belong to the traffic / resource components
modelled separately.) -/
def demo_tow_update (baseEntry : Pos) (m : DemoMaint) (v : DemoVehicle) :
    DemoMaint × DemoVehicle :=
  if m.towingVehicle then
    if m.position ≠ baseEntry then
      let mp := demoStepToward m.position baseEntry
      ({ m with position := mp }, { v with position := mp })
    else
      ({ m with towingVehicle := false },
        { v with isBroken := false, breakdownType := none })
  else
    if m.position ≠ v.position then
      ({ m with position := demoStepToward m.position v.position }, v)
    else
      ({ m with towingVehicle := true }, v)

/-! ## Helper lemmas -/

/-- The pool invariant `0 ≤ in_use ≤ total` (for tools and tow hooks) holds
in every reachable pool state. -/
lemma pool_invariant (p : ResourcePool) (h : PoolReachable p) :
    0 ≤ p.toolsInUse ∧ p.toolsInUse ≤ p.toolsTotal ∧
    0 ≤ p.towHooksInUse ∧ p.towHooksInUse ≤ p.towHooksTotal := by
  induction h with
  | init => refine ⟨le_refl 0, ?_, le_refl 0, ?_⟩ <;> decide
  | request tools towHooks ht hh _ ih =>
    obtain ⟨i1, i2, i3, i4⟩ := ih
    simp only [request_resources]
    split_ifs with hcond
    · obtain ⟨h1, h2⟩ := hcond
      exact ⟨by dsimp; omega, by dsimp; omega, by dsimp; omega, by dsimp; omega⟩
    · exact ⟨i1, i2, i3, i4⟩
  | release tools towHooks ht hh _ ih =>
    unfold release_resources
    refine ⟨le_max_left _ _, ?_, le_max_left _ _, ?_⟩
    · exact max_le (le_trans ih.1 ih.2.1) (le_trans (by omega) ih.2.1)
    · exact max_le (le_trans ih.2.2.1 ih.2.2.2) (le_trans (by omega) ih.2.2.2)

/-- Unrolling the station boarding loop: popping `n` passengers FIFO takes
the first `n` and leaves the rest. -/
lemma boardingLoop_spec (n : Nat) (queue : List QueuedPassenger)
    (acc : List (String × String)) :
    boardingLoop n queue acc =
      (queue.drop n, acc ++ (queue.take n).map (fun p => (p.pid, p.destination))) := by
  induction n generalizing queue acc with
  | zero => simp [boardingLoop]
  | succ k ih =>
    cases queue with
    | nil => simp [boardingLoop]
    | cons p rest => simp [boardingLoop, ih]

/-! ## Claim theorems -/

/-- C3: a resource request succeeds exactly when both requested amounts are
within current availability; on success both in-use counters are
incremented by the requested amounts, on failure the pool is unchanged (no
partial allocation); every reachable pool state satisfies
`0 ≤ in_use ≤ total` for tools and for tow hooks; and with 8 total tools a
granted engine request of 5 tools makes a second engine request of 5 tools
fail. -/
theorem C3_resource_pool_atomic_check_and_reserve (tools towHooks : Int)
    (s p : ResourcePool) (hp : PoolReachable p) :
    ((request_resources tools towHooks s).1 = true ↔
        tools ≤ s.toolsTotal - s.toolsInUse ∧ towHooks ≤ s.towHooksTotal - s.towHooksInUse)
    ∧ ((request_resources tools towHooks s).1 = true →
        (request_resources tools towHooks s).2.toolsInUse = s.toolsInUse + tools ∧
        (request_resources tools towHooks s).2.towHooksInUse = s.towHooksInUse + towHooks)
    ∧ ((request_resources tools towHooks s).1 = false →
        (request_resources tools towHooks s).2 = s)
    ∧ (0 ≤ p.toolsInUse ∧ p.toolsInUse ≤ p.toolsTotal ∧
        0 ≤ p.towHooksInUse ∧ p.towHooksInUse ≤ p.towHooksTotal)
    ∧ ((request_resources 5 0 initMaintenancePool).1 = true ∧
        (request_resources 5 0 (request_resources 5 0 initMaintenancePool).2).1 = false) := by
  refine ⟨?_, ?_, ?_, pool_invariant p hp, by decide⟩
  · simp only [request_resources]
    split_ifs with hcond
    · simpa using hcond
    · simpa using hcond
  · simp only [request_resources]
    split_ifs with hcond
    · intro _; exact ⟨rfl, rfl⟩
    · intro hfalse; exact absurd hfalse (by simp)
  · simp only [request_resources]
    split_ifs with hcond
    · intro hfalse; exact absurd hfalse (by simp)
    · intro _; rfl

/-- C3 witness: a concrete run of the theorem at the initial maintenance
pool with an engine-sized request. -/
theorem C3_resource_pool_atomic_check_and_reserve_witness :
    ((request_resources 5 0 initMaintenancePool).1 = true ↔
        (5 : Int) ≤ initMaintenancePool.toolsTotal - initMaintenancePool.toolsInUse ∧
        (0 : Int) ≤ initMaintenancePool.towHooksTotal - initMaintenancePool.towHooksInUse)
    ∧ ((request_resources 5 0 initMaintenancePool).1 = true →
        (request_resources 5 0 initMaintenancePool).2.toolsInUse =
          initMaintenancePool.toolsInUse + 5 ∧
        (request_resources 5 0 initMaintenancePool).2.towHooksInUse =
          initMaintenancePool.towHooksInUse + 0)
    ∧ ((request_resources 5 0 initMaintenancePool).1 = false →
        (request_resources 5 0 initMaintenancePool).2 = initMaintenancePool)
    ∧ (0 ≤ initMaintenancePool.toolsInUse ∧
        initMaintenancePool.toolsInUse ≤ initMaintenancePool.toolsTotal ∧
        0 ≤ initMaintenancePool.towHooksInUse ∧
        initMaintenancePool.towHooksInUse ≤ initMaintenancePool.towHooksTotal)
    ∧ ((request_resources 5 0 initMaintenancePool).1 = true ∧
        (request_resources 5 0 (request_resources 5 0 initMaintenancePool).2).1 = false) :=
  C3_resource_pool_atomic_check_and_reserve 5 0 initMaintenancePool
    initMaintenancePool PoolReachable.init

/-- C4: the guard of `request_additional_service` is inert — the function
never adds anything to `requested_vehicles` (nothing in the repository
does), so starting from a fresh station two successive overcrowding checks
each initiate a Contract Net CFP: after the two calls, two contracts are
outstanding, contradicting "at most one outstanding negotiation per
station". -/
theorem C4_second_overcrowding_check_initiates_second_cfp :
    (∀ (s : StationCNPState) (nearby : List String) (cid : String),
        (request_additional_service nearby cid s).requestedVehicles = s.requestedVehicles)
    ∧ (request_additional_service ["vehicle_1@local"] "contract_2"
        (request_additional_service ["vehicle_1@local"] "contract_1"
          initStationCNPState)).activeContracts = ["contract_1", "contract_2"]
    ∧ (request_additional_service ["vehicle_1@local"] "contract_2"
        (request_additional_service ["vehicle_1@local"] "contract_1"
          initStationCNPState)).serviceRequestsSent = 2 := by
  refine ⟨?_, by decide, by decide⟩
  intro s nearby cid
  unfold request_additional_service
  split
  · rfl
  · split <;> rfl

/-- C2: on `VEHICLE_ARRIVED` the station does send nothing when
`capacity - occupancy ≤ 0` or the queue is empty, and otherwise it removes
exactly `min(capacity - occupancy, len(queue))` passengers from the front
of the FIFO queue — but the `BOARDING_LIST` reply is NEVER sent:
`settings.MESSAGE_TYPES` has no `BOARDING_LIST` key, so
`MESSAGE_TYPES['BOARDING_LIST']` raises `KeyError` after the pop loop,
the handler's own `except` swallows it, and the popped passengers are
silently dropped. -/
theorem C2_boarding_reply_never_sent (capacity occupancy : Int)
    (queue : List QueuedPassenger) :
    dictGet MESSAGE_TYPES "BOARDING_LIST" = none
    ∧ (capacity - occupancy ≤ 0 →
        handle_vehicle_arrived capacity occupancy queue = (queue, none))
    ∧ (queue = [] → handle_vehicle_arrived capacity occupancy queue = (queue, none))
    ∧ (0 < capacity - occupancy → queue ≠ [] →
        handle_vehicle_arrived capacity occupancy queue =
          (queue.drop (min (capacity - occupancy).toNat queue.length), none))
    ∧ (∀ reply, (handle_vehicle_arrived capacity occupancy queue).2 ≠ some reply) := by
  have hkey : dictGet MESSAGE_TYPES "BOARDING_LIST" = none := by decide
  have hmain : (capacity - occupancy ≤ 0 →
        handle_vehicle_arrived capacity occupancy queue = (queue, none))
      ∧ (queue = [] → handle_vehicle_arrived capacity occupancy queue = (queue, none))
      ∧ (0 < capacity - occupancy → queue ≠ [] →
          handle_vehicle_arrived capacity occupancy queue =
            (queue.drop (min (capacity - occupancy).toNat queue.length), none)) := by
    refine ⟨?_, ?_, ?_⟩
    · intro h
      have hmax : max 0 (capacity - occupancy) = 0 := max_eq_left h
      simp only [handle_vehicle_arrived, hmax]
      norm_num
    · intro h
      subst h
      simp only [handle_vehicle_arrived]
      split_ifs <;> simp_all
    · intro hpos hne
      have hmax : max 0 (capacity - occupancy) = capacity - occupancy :=
        max_eq_right (le_of_lt hpos)
      simp only [handle_vehicle_arrived, hmax, hkey]
      split_ifs with h1 h2
      · exact absurd h1 (not_le.mpr hpos)
      · exact absurd (List.eq_nil_of_length_eq_zero h2) hne
      · rw [boardingLoop_spec]
  exact ⟨hkey, hmain.1, hmain.2.1, hmain.2.2, by
    intro reply
    by_cases h0 : capacity - occupancy ≤ 0
    · rw [hmain.1 h0]
      simp
    · by_cases hq : queue = []
      · rw [hmain.2.1 hq]
        simp
      · rw [hmain.2.2 (by omega) hq]
        simp⟩

/-- A queue of three waiting passengers used to instantiate the station
boarding theorem. -/
def c2Queue : List QueuedPassenger :=
  [{ pid := "p1", destination := "station_1" },
   { pid := "p2", destination := "station_2" },
   { pid := "p3", destination := "station_3" }]

/-- C2 witness: a vehicle with capacity 5 and occupancy 3 makes the
station pop exactly two of the three queued passengers, FIFO, and the
`BOARDING_LIST` reply is never produced. -/
theorem C2_boarding_reply_never_sent_witness :
    0 < (5 : Int) - 3 ∧ c2Queue ≠ [] ∧
    handle_vehicle_arrived 5 3 c2Queue =
      (c2Queue.drop (min ((5 : Int) - 3).toNat c2Queue.length), none) :=
  ⟨by decide, by decide,
    (C2_boarding_reply_never_sent 5 3 c2Queue).2.2.2.1 (by decide) (by decide)⟩

/-- Characterization of the `evaluate_proposals` fold: either no score
strictly exceeds the incoming best and the accumulator survives, or the
fold returns the proposal at the first index whose score strictly exceeds
everything before it (and no later score exceeds it). -/
lemma evalFold_cases (t : CNTask) (l : List (String × CNProposal)) :
    ∀ (b : Option String) (bs : ℚ),
      ((∀ sp ∈ l, calculate_proposal_score sp.2 t ≤ bs) ∧
        l.foldl (evalStep t) (b, bs) = (b, bs))
      ∨ (∃ i : Nat, ∃ hi : i < l.length,
          l.foldl (evalStep t) (b, bs) =
            (some (l.get ⟨i, hi⟩).1, calculate_proposal_score (l.get ⟨i, hi⟩).2 t)
          ∧ bs < calculate_proposal_score (l.get ⟨i, hi⟩).2 t
          ∧ (∀ j : Nat, ∀ hj : j < l.length, j < i →
              calculate_proposal_score (l.get ⟨j, hj⟩).2 t <
                calculate_proposal_score (l.get ⟨i, hi⟩).2 t)
          ∧ (∀ j : Nat, ∀ hj : j < l.length,
              calculate_proposal_score (l.get ⟨j, hj⟩).2 t ≤
                calculate_proposal_score (l.get ⟨i, hi⟩).2 t ∨
              calculate_proposal_score (l.get ⟨j, hj⟩).2 t ≤ bs)) := by
  induction l with
  | nil =>
    intro b bs
    left
    exact ⟨by simp, rfl⟩
  | cons hd tl ih =>
    intro b bs
    rw [List.foldl_cons]
    by_cases hgt : bs < calculate_proposal_score hd.2 t
    · have hstep : evalStep t (b, bs) hd = (some hd.1, calculate_proposal_score hd.2 t) := by
        simp only [evalStep]
        rw [if_pos hgt]
      rw [hstep]
      rcases ih (some hd.1) (calculate_proposal_score hd.2 t) with
        ⟨hall, heq⟩ | ⟨i, hi, heq, hlt, hprev, hmax⟩
      · right
        refine ⟨0, by simp, ?_, ?_, ?_, ?_⟩
        · rw [heq]
          rfl
        · simpa using hgt
        · intro j hj hj0; omega
        · intro j hj
          left
          cases j with
          | zero => exact le_refl _
          | succ k =>
            have hk : k < tl.length := by simpa using hj
            have := hall (tl.get ⟨k, hk⟩) (List.get_mem tl k hk)
            simpa using this
      · right
        refine ⟨i + 1, by simpa using Nat.succ_lt_succ hi, ?_, ?_, ?_, ?_⟩
        · rw [heq]
          rfl
        · calc bs < calculate_proposal_score hd.2 t := hgt
            _ < _ := by simpa using hlt
        · intro j hj hji
          cases j with
          | zero =>
            calc calculate_proposal_score ((hd :: tl).get ⟨0, hj⟩).2 t
                = calculate_proposal_score hd.2 t := rfl
              _ < _ := by simpa using hlt
          | succ k =>
            have hk : k < tl.length := by simpa using hj
            have hki : k < i := by omega
            have := hprev k hk hki
            simpa using this
        · intro j hj
          cases j with
          | zero =>
            left
            calc calculate_proposal_score ((hd :: tl).get ⟨0, hj⟩).2 t
                = calculate_proposal_score hd.2 t := rfl
              _ ≤ _ := le_of_lt (by simpa using hlt)
          | succ k =>
            have hk : k < tl.length := by simpa using hj
            rcases hmax k hk with hcase | hcase
            · left; simpa using hcase
            · left
              calc calculate_proposal_score ((hd :: tl).get ⟨k + 1, hj⟩).2 t
                  ≤ calculate_proposal_score hd.2 t := by simpa using hcase
                _ ≤ _ := le_of_lt (by simpa using hlt)
    · have hstep : evalStep t (b, bs) hd = (b, bs) := by
        simp only [evalStep]
        rw [if_neg hgt]
      rw [hstep]
      rcases ih b bs with ⟨hall, heq⟩ | ⟨i, hi, heq, hlt, hprev, hmax⟩
      · left
        refine ⟨?_, heq⟩
        intro sp hsp
        rcases List.mem_cons.mp hsp with hsp | hsp
        · subst hsp; exact le_of_not_lt hgt
        · exact hall sp hsp
      · right
        refine ⟨i + 1, by simpa using Nat.succ_lt_succ hi, ?_, ?_, ?_, ?_⟩
        · rw [heq]
          rfl
        · simpa using hlt
        · intro j hj hji
          cases j with
          | zero =>
            calc calculate_proposal_score ((hd :: tl).get ⟨0, hj⟩).2 t
                = calculate_proposal_score hd.2 t := rfl
              _ ≤ bs := le_of_not_lt hgt
              _ < _ := by simpa using hlt
          | succ k =>
            have hk : k < tl.length := by simpa using hj
            have hki : k < i := by omega
            have := hprev k hk hki
            simpa using this
        · intro j hj
          cases j with
          | zero =>
            right
            calc calculate_proposal_score ((hd :: tl).get ⟨0, hj⟩).2 t
                = calculate_proposal_score hd.2 t := rfl
              _ ≤ bs := le_of_not_lt hgt
          | succ k =>
            have hk : k < tl.length := by simpa using hj
            rcases hmax k hk with hcase | hcase
            · left; simpa using hcase
            · right; simpa using hcase

/-- C1: at a contract's deadline, with no proposals the contract is marked
FAILED and no ACCEPT or REJECT is sent; with proposals (all of which score
non-negatively, as every proposal the participants construct does — the
offered capacity is the non-negative free capacity and the other two
score terms are clamped at zero), the first-received proposal of maximal
score wins: exactly one ACCEPT is sent, to that winner, carrying the
original task with the initiator's id attached, a REJECT goes to every
other bidder, the status becomes AWARDED, the winner's score is maximal,
and every earlier-received proposal scores strictly less. -/
theorem C1_contract_deadline_award (initiator contractId : String) (task : CNTask)
    (proposals : List (String × CNProposal))
    (hscore : ∀ sp ∈ proposals, 0 ≤ calculate_proposal_score sp.2 task) :
    (proposals = [] →
      collect_proposals initiator contractId task proposals = (CNStatus.failed, []))
    ∧ (proposals ≠ [] →
        ∃ i : Nat, ∃ hi : i < proposals.length,
          collect_proposals initiator contractId task proposals =
            (CNStatus.awarded,
              CNMessage.accept (proposals.get ⟨i, hi⟩).1 contractId task initiator ::
                (proposals.filter (fun sp => sp.1 ≠ (proposals.get ⟨i, hi⟩).1)).map
                  (fun sp => CNMessage.reject sp.1 contractId))
          ∧ (∀ j : Nat, ∀ hj : j < proposals.length,
              calculate_proposal_score (proposals.get ⟨j, hj⟩).2 task ≤
                calculate_proposal_score (proposals.get ⟨i, hi⟩).2 task)
          ∧ (∀ j : Nat, ∀ hj : j < proposals.length, j < i →
              calculate_proposal_score (proposals.get ⟨j, hj⟩).2 task <
                calculate_proposal_score (proposals.get ⟨i, hi⟩).2 task)) := by
  constructor
  · intro h
    subst h
    rfl
  · intro hne
    rcases evalFold_cases task proposals none (-1) with
      ⟨hall, _⟩ | ⟨i, hi, heq, _, hprev, hmax⟩
    · exfalso
      cases proposals with
      | nil => exact hne rfl
      | cons hd tl =>
        have h1 := hall hd (List.mem_cons_self hd tl)
        have h2 := hscore hd (List.mem_cons_self hd tl)
        linarith
    · refine ⟨i, hi, ?_, ?_, ?_⟩
      · unfold collect_proposals
        rw [if_neg (by simpa [List.isEmpty_iff] using hne)]
        unfold evaluate_proposals
        rw [heq]
        rfl
      · intro j hj
        rcases hmax j hj with h | h
        · exact h
        · exfalso
          have := hscore (proposals.get ⟨j, hj⟩) (List.get_mem proposals j hj)
          linarith
      · intro j hj hji
        exact hprev j hj hji

/-- The single proposal used to instantiate the contract award theorem:
a vehicle offering capacity 30 at cost 10. -/
def c1Proposals : List (String × CNProposal) :=
  [("vehicle_1@local", { capacity := some 30, arrivalMinutes := none, cost := some 10 })]

/-- The task used to instantiate the contract award theorem. -/
def c1Task : CNTask := { urgencyHigh := false, maxCost := 100 }

/-- C1 witness: a concrete run of the deadline evaluation with one
proposal. -/
theorem C1_contract_deadline_award_witness :
    (∀ sp ∈ c1Proposals, 0 ≤ calculate_proposal_score sp.2 c1Task)
    ∧ ((c1Proposals = [] →
        collect_proposals "station_0@local" "contract_1" c1Task c1Proposals =
          (CNStatus.failed, []))
      ∧ (c1Proposals ≠ [] →
          ∃ i : Nat, ∃ hi : i < c1Proposals.length,
            collect_proposals "station_0@local" "contract_1" c1Task c1Proposals =
              (CNStatus.awarded,
                CNMessage.accept (c1Proposals.get ⟨i, hi⟩).1 "contract_1" c1Task
                    "station_0@local" ::
                  (c1Proposals.filter (fun sp => sp.1 ≠ (c1Proposals.get ⟨i, hi⟩).1)).map
                    (fun sp => CNMessage.reject sp.1 "contract_1"))
            ∧ (∀ j : Nat, ∀ hj : j < c1Proposals.length,
                calculate_proposal_score (c1Proposals.get ⟨j, hj⟩).2 c1Task ≤
                  calculate_proposal_score (c1Proposals.get ⟨i, hi⟩).2 c1Task)
            ∧ (∀ j : Nat, ∀ hj : j < c1Proposals.length, j < i →
                calculate_proposal_score (c1Proposals.get ⟨j, hj⟩).2 c1Task <
                  calculate_proposal_score (c1Proposals.get ⟨i, hi⟩).2 c1Task))) :=
  have hs : ∀ sp ∈ c1Proposals, 0 ≤ calculate_proposal_score sp.2 c1Task := by
    intro sp hsp
    simp only [c1Proposals, List.mem_singleton] at hsp
    subst hsp
    norm_num [calculate_proposal_score, c1Task, max_def]
  ⟨hs, C1_contract_deadline_award "station_0@local" "contract_1" c1Task c1Proposals hs⟩

/-- `_same_direction` returns `False` exactly when the dot product of the
two directions is non-positive (a stationary vehicle's direction `(0,0)`
has dot product `0` with everything, agreeing with the special case). -/
lemma same_direction_false_iff (d1 d2 : Int × Int) :
    same_direction d1 d2 = false ↔ d1.1 * d2.1 + d1.2 * d2.2 ≤ 0 := by
  unfold same_direction
  split_ifs with h0
  · constructor
    · intro _
      rcases h0 with h | h <;> (rw [h]; simp)
    · intro _; rfl
  · simp only [decide_eq_false_iff_not, not_lt]

/-- A reachable cell state with a still-broken tram but a cleared rail:
two trams move onto the same cell in opposite directions (allowed), both
break down and re-register as broken (demo.py lines 508-515), then one is
repaired on site — `repair_vehicle` discards the whole cell from
`blocked_rails` although the other broken tram remains. -/
def c6BadCell : CellState :=
  repair_vehicle "tram_A"
    (register_vehicle_position "tram_B"
      (register_vehicle_position "tram_A"
        (register_vehicle_position "tram_B"
          (register_vehicle_position "tram_A"
            { occupants := [], blocked := false } "tram" (0, -1) false)
          "tram" (0, 1) false)
        "tram" (0, -1) true)
      "tram" (0, 1) true)

/-- C6 counterexample: in the reachable state `c6BadCell` a broken,
unrepaired tram (`tram_B`) still occupies the cell, yet
`can_move_to_position` admits another tram onto it — refuting "a tram may
never move onto a rail cell occupied by a broken-down tram until that
tram is repaired" as stated. -/
theorem C6_broken_tram_cell_admits_tram_counterexample :
    (∃ oi ∈ c6BadCell.occupants, oi.1 = "tram_B" ∧ oi.2.vtype = "tram"
      ∧ oi.2.broken = true)
    ∧ c6BadCell.blocked = false
    ∧ can_move_to_position "tram_C" c6BadCell "tram" (1, 0) = true := by
  decide

/-- C6 (amended): the tram-blocking state is the `blocked_rails` flag, not
broken-tram occupancy itself.  A tram is always refused on a blocked,
occupied cell; on an unblocked cell it is admitted exactly when every
other tram there has direction dot product ≤ 0 with its own; a bus is
always admitted; registering a broken tram blocks its cell; and
`repair_vehicle` of any vehicle registered at the cell clears the block
for the whole cell (even when another broken tram remains — the gap shown
by the counterexample). -/
theorem C6_blocked_rail_exclusivity (vehicleId vid2 : String)
    (direction dir2 : Int × Int) (cell : CellState) :
    (cell.blocked = true → cell.occupants ≠ [] →
      can_move_to_position vehicleId cell "tram" direction = false)
    ∧ (cell.blocked = false →
        (can_move_to_position vehicleId cell "tram" direction = true ↔
          ∀ oi ∈ cell.occupants, oi.1 ≠ vehicleId → oi.2.vtype = "tram" →
            direction.1 * oi.2.direction.1 + direction.2 * oi.2.direction.2 ≤ 0))
    ∧ can_move_to_position vehicleId cell "bus" direction = true
    ∧ (register_vehicle_position vid2 cell "tram" dir2 true).blocked = true
    ∧ (cell.occupants.any (fun oi => oi.1 = vid2) = true →
        (repair_vehicle vid2 cell).blocked = false) := by
  refine ⟨?_, ?_, ?_, ?_, ?_⟩
  · intro hb hocc
    have hne : ¬ cell.occupants.isEmpty = true := by
      cases h : cell.occupants with
      | nil => exact absurd h hocc
      | cons a l => simp [h]
    unfold can_move_to_position
    rw [if_neg hne, if_pos rfl, if_pos hb]
  · intro hb
    have hnb : ¬ cell.blocked = true := by rw [hb]; simp
    unfold can_move_to_position
    by_cases hemp : cell.occupants.isEmpty = true
    · rw [if_pos hemp]
      have : cell.occupants = [] := by
        cases h : cell.occupants with
        | nil => rfl
        | cons a l => rw [h] at hemp; exact absurd hemp (by simp)
      rw [this]
      simp
    · rw [if_neg hemp, if_pos rfl, if_neg hnb]
      rw [List.all_eq_true]
      constructor
      · intro h oi hoi hid htram
        have := h oi hoi
        rw [decide_eq_true_iff] at this
        rcases this with h1 | h1 | h1
        · exact absurd h1 hid
        · exact absurd htram h1
        · exact (same_direction_false_iff direction oi.2.direction).mp (by simpa using h1)
      · intro h oi hoi
        rw [decide_eq_true_iff]
        by_cases hid : oi.1 = vehicleId
        · exact Or.inl hid
        · by_cases htram : oi.2.vtype = "tram"
          · refine Or.inr (Or.inr ?_)
            have := (same_direction_false_iff direction oi.2.direction).mpr (h oi hoi hid htram)
            simp [this]
          · exact Or.inr (Or.inl htram)
  · unfold can_move_to_position
    by_cases hemp : cell.occupants.isEmpty = true
    · rw [if_pos hemp]
    · rw [if_neg hemp, if_neg (by decide : ¬ ("bus" : String) = "tram")]
  · simp [register_vehicle_position]
  · intro h
    unfold repair_vehicle
    rw [if_pos h]

/-- A cell holding one broken tram that is still correctly blocked, used
to instantiate the amended rail exclusivity theorem. -/
def c6Cell : CellState :=
  { occupants := [("tram_1", { vtype := "tram", direction := (0, 0), broken := true })],
    blocked := true }

/-- C6 witness: on a blocked cell occupied by a broken tram a second tram
is refused and a bus is admitted, and repairing the broken tram clears
the block. -/
theorem C6_blocked_rail_exclusivity_witness :
    c6Cell.blocked = true ∧ c6Cell.occupants ≠ [] ∧
    can_move_to_position "tram_2" c6Cell "tram" (1, 0) = false ∧
    can_move_to_position "bus_1" c6Cell "bus" (1, 0) = true ∧
    (c6Cell.occupants.any (fun oi => oi.1 = "tram_1") = true ∧
      (repair_vehicle "tram_1" c6Cell).blocked = false) :=
  have h := C6_blocked_rail_exclusivity "tram_2" "tram_1" (1, 0) (0, 0) c6Cell
  ⟨rfl, by decide, h.1 rfl (by decide), h.2.2.1, by decide, h.2.2.2.2 (by decide)⟩

/-- Dictionary lookup on the registry association lists (first entry with
the key, as in a Python dict). -/
def inboxOf (queues : List (String × List BusMessage)) (jid : String) :
    Option (List BusMessage) :=
  match queues with
  | [] => none
  | q :: rest => if q.1 = jid then some q.2 else inboxOf rest jid

/-- Key membership agrees with lookup success. -/
lemma any_key_eq_isSome (queues : List (String × List BusMessage)) (jid : String) :
    queues.any (fun q => q.1 = jid) = (inboxOf queues jid).isSome := by
  induction queues with
  | nil => rfl
  | cons q rest ih =>
    unfold inboxOf
    by_cases h : q.1 = jid
    · simp [h]
    · simp [h, ih]

/-- Updating the entry of key `k` in place changes the lookup of `k` and
nothing else. -/
lemma inboxOf_map_update (queues : List (String × List BusMessage)) (k j : String)
    (f : List BusMessage → List BusMessage) :
    inboxOf (queues.map (fun q => if q.1 = k then (q.1, f q.2) else q)) j =
      if k = j then (inboxOf queues j).map f else inboxOf queues j := by
  induction queues with
  | nil => by_cases h : k = j <;> simp [inboxOf, h]
  | cons q rest ih =>
    simp only [List.map_cons]
    by_cases hq : q.1 = k
    · rw [if_pos hq]
      by_cases hkj : k = j
      · subst hkj
        unfold inboxOf
        rw [if_pos hq, if_pos hq]
        simp
      · unfold inboxOf
        have hqj : ¬ q.1 = j := fun h => hkj (hq ▸ h)
        rw [if_neg hqj, if_neg hqj, if_neg hkj, ih, if_neg hkj]
    · rw [if_neg hq]
      by_cases hqj : q.1 = j
      · have hkj : ¬ k = j := fun h => hq (h ▸ hqj)
        unfold inboxOf
        rw [if_pos hqj, if_pos hqj, if_neg hkj]
      · unfold inboxOf
        rw [if_neg hqj, if_neg hqj, ih]

/-- `inboxOf_map_update` specialised to the plain-append update of the
message bus. -/
lemma inboxOf_map_append (queues : List (String × List BusMessage)) (k j : String)
    (m : BusMessage) :
    inboxOf (queues.map (fun q => if q.1 = k then (q.1, q.2 ++ [m]) else q)) j =
      if k = j then (inboxOf queues j).map (fun l => l ++ [m]) else inboxOf queues j :=
  inboxOf_map_update queues k j (fun l => l ++ [m])

/-- `inboxOf_map_update` specialised to the bounded-deque append of the
agent registry. -/
lemma inboxOf_map_dequeAppend (queues : List (String × List BusMessage)) (k j : String)
    (m : BusMessage) :
    inboxOf (queues.map (fun q => if q.1 = k then (q.1, dequeAppend 1000 q.2 m) else q)) j =
      if k = j then (inboxOf queues j).map (fun l => dequeAppend 1000 l m)
      else inboxOf queues j :=
  inboxOf_map_update queues k j (fun l => dequeAppend 1000 l m)

/-- Appending a fresh entry is found by lookup when the key was absent. -/
lemma inboxOf_append_new (queues : List (String × List BusMessage)) (jid : String)
    (v : List BusMessage) (h : inboxOf queues jid = none) :
    inboxOf (queues ++ [(jid, v)]) jid = some v := by
  induction queues with
  | nil => simp [inboxOf]
  | cons q rest ih =>
    rw [List.cons_append]
    simp only [inboxOf] at h ⊢
    by_cases hq : q.1 = jid
    · rw [if_pos hq] at h
      exact absurd h (by simp)
    · rw [if_neg hq] at h ⊢
      exact ih h

/-- C9: a send to a recipient with no registered queue leaves the bus
exactly as it was — no inbox receives the message, the log is unchanged,
and the (total) send returns normally; a send to a registered recipient
appends the message to that recipient's inbox and to the log, leaving
every other inbox unchanged. -/
theorem C9_send_unregistered_drops_message (bus : BusState)
    (senderJid toJid body mtype : String) :
    (inboxOf bus.queues toJid = none →
      bus_send_message bus senderJid toJid body mtype = bus)
    ∧ (∀ q : List BusMessage, inboxOf bus.queues toJid = some q →
        inboxOf (bus_send_message bus senderJid toJid body mtype).queues toJid =
          some (q ++ [{ sender := senderJid, toJid := toJid, body := body, mtype := mtype }])
        ∧ (∀ j : String, j ≠ toJid →
            inboxOf (bus_send_message bus senderJid toJid body mtype).queues j =
              inboxOf bus.queues j)
        ∧ (bus_send_message bus senderJid toJid body mtype).log =
            bus.log ++ [{ sender := senderJid, toJid := toJid, body := body, mtype := mtype }]) := by
  constructor
  · intro h
    have hreg : (bus.queues.any fun qq => qq.1 = toJid) = false := by
      rw [any_key_eq_isSome, h]
      rfl
    simp only [bus_send_message]
    rw [hreg, if_neg (by simp : ¬ (false = true))]
  · intro q hq
    have hreg : (bus.queues.any fun qq => qq.1 = toJid) = true := by
      rw [any_key_eq_isSome, hq]
      rfl
    refine ⟨?_, ?_, ?_⟩
    · simp only [bus_send_message]
      rw [hreg, if_pos rfl]
      dsimp only
      rw [inboxOf_map_append, if_pos rfl, hq]
      rfl
    · intro j hj
      simp only [bus_send_message]
      rw [hreg, if_pos rfl]
      dsimp only
      rw [inboxOf_map_append, if_neg (fun h => hj h.symm)]
    · simp only [bus_send_message]
      rw [hreg, if_pos rfl]

/-- A bus with one registered agent, used to instantiate the send theorem. -/
def c9Bus : BusState := { queues := [("station_0@local", [])], log := [] }

/-- C9 witness: on a bus where only `station_0@local` is registered, a send
to an unregistered jid changes nothing, and a send to the registered jid
lands in its inbox. -/
theorem C9_send_unregistered_drops_message_witness :
    (inboxOf c9Bus.queues "ghost@local" = none ∧
      bus_send_message c9Bus "vehicle_1@local" "ghost@local" "ping" "VEHICLE_ARRIVED" = c9Bus)
    ∧ (inboxOf c9Bus.queues "station_0@local" = some [] ∧
        inboxOf (bus_send_message c9Bus "vehicle_1@local" "station_0@local" "ping"
            "VEHICLE_ARRIVED").queues "station_0@local" =
          some ([] ++ [{ sender := "vehicle_1@local", toJid := "station_0@local",
                         body := "ping", mtype := "VEHICLE_ARRIVED" }])) :=
  ⟨⟨by decide,
    (C9_send_unregistered_drops_message c9Bus "vehicle_1@local" "ghost@local" "ping"
      "VEHICLE_ARRIVED").1 (by decide)⟩,
   ⟨by decide,
    ((C9_send_unregistered_drops_message c9Bus "vehicle_1@local" "station_0@local" "ping"
      "VEHICLE_ARRIVED").2 [] (by decide)).1⟩⟩

/-- C10: the agent-level send is total and auto-creates a bounded inbox:
an absent recipient gets a fresh inbox holding just the message; an inbox
below 1000 pending messages grows by one at the back; an inbox already
holding 1000 pending messages silently drops its oldest message, staying
at 1000 — message loss for a registered, live recipient. -/
theorem C10_agent_inbox_bounded_deque (queues : AgentQueues) (toJid : String)
    (m : BusMessage) :
    (inboxOf queues toJid = none →
      inboxOf (agent_send_message queues toJid m) toJid = some [m])
    ∧ (∀ q : List BusMessage, inboxOf queues toJid = some q → q.length < 1000 →
        inboxOf (agent_send_message queues toJid m) toJid = some (q ++ [m]))
    ∧ (∀ q : List BusMessage, inboxOf queues toJid = some q → q.length = 1000 →
        inboxOf (agent_send_message queues toJid m) toJid = some (q.drop 1 ++ [m])
        ∧ (q.drop 1 ++ [m]).length = 1000) := by
  refine ⟨?_, ?_, ?_⟩
  · intro h
    have hreg : (queues.any fun q => q.1 = toJid) = false := by
      rw [any_key_eq_isSome, h]
      rfl
    simp only [agent_send_message]
    rw [hreg, if_neg (by simp : ¬ (false = true))]
    rw [inboxOf_map_dequeAppend, if_pos rfl, inboxOf_append_new queues toJid [] h]
    simp [dequeAppend]
  · intro q hq hlen
    have hreg : (queues.any fun q => q.1 = toJid) = true := by
      rw [any_key_eq_isSome, hq]
      rfl
    simp only [agent_send_message]
    rw [hreg, if_pos rfl]
    rw [inboxOf_map_dequeAppend, if_pos rfl, hq]
    simp [dequeAppend, hlen]
  · intro q hq hlen
    have hreg : (queues.any fun q => q.1 = toJid) = true := by
      rw [any_key_eq_isSome, hq]
      rfl
    constructor
    · simp only [agent_send_message]
      rw [hreg, if_pos rfl]
      rw [inboxOf_map_dequeAppend, if_pos rfl, hq]
      have hnot : ¬ q.length < 1000 := by omega
      simp [dequeAppend, hnot, hlen]
    · rw [List.length_append, List.length_drop, hlen]
      simp

/-- A registry whose single inbox is full (1000 pending messages), used to
instantiate the bounded-inbox theorem. -/
def c10FullQueues : AgentQueues :=
  [("vehicle_1@local",
    List.replicate 1000
      { sender := "station_0@local", toJid := "vehicle_1@local",
        body := "old", mtype := "BOARDING_LIST" })]

/-- C10 witness: appending to a full inbox drops the oldest pending
message and keeps the length at 1000. -/
theorem C10_agent_inbox_bounded_deque_witness :
    (inboxOf c10FullQueues "vehicle_1@local" =
      some (List.replicate 1000
        { sender := "station_0@local", toJid := "vehicle_1@local",
          body := "old", mtype := "BOARDING_LIST" }))
    ∧ (List.replicate 1000
        ({ sender := "station_0@local", toJid := "vehicle_1@local",
           body := "old", mtype := "BOARDING_LIST" } : BusMessage)).length = 1000
    ∧ inboxOf (agent_send_message c10FullQueues "vehicle_1@local"
        { sender := "station_0@local", toJid := "vehicle_1@local",
          body := "new", mtype := "BOARDING_LIST" }) "vehicle_1@local" =
      some ((List.replicate 1000
        ({ sender := "station_0@local", toJid := "vehicle_1@local",
           body := "old", mtype := "BOARDING_LIST" } : BusMessage)).drop 1 ++
        [{ sender := "station_0@local", toJid := "vehicle_1@local",
           body := "new", mtype := "BOARDING_LIST" }]) :=
  have hq : inboxOf c10FullQueues "vehicle_1@local" =
      some (List.replicate 1000
        { sender := "station_0@local", toJid := "vehicle_1@local",
          body := "old", mtype := "BOARDING_LIST" }) := by
    unfold c10FullQueues
    simp only [inboxOf]
    rw [if_pos trivial]
  ⟨hq, by rw [List.length_replicate],
    (((C10_agent_inbox_bounded_deque c10FullQueues "vehicle_1@local"
        { sender := "station_0@local", toJid := "vehicle_1@local",
          body := "new", mtype := "BOARDING_LIST" }).2.2
      (List.replicate 1000
        { sender := "station_0@local", toJid := "vehicle_1@local",
          body := "old", mtype := "BOARDING_LIST" }) hq) (by rw [List.length_replicate])).1⟩

/-- `_recover_next_station` touches only `next_station` and
`current_station_index`: all other observable fields survive it. -/
lemma recover_next_station_frame (v : Vehicle) :
    (recover_next_station v).currentPosition = v.currentPosition
    ∧ (recover_next_station v).floatX = v.floatX
    ∧ (recover_next_station v).floatY = v.floatY
    ∧ (recover_next_station v).fuelLevel = v.fuelLevel
    ∧ (recover_next_station v).breakdownType = v.breakdownType
    ∧ (recover_next_station v).isBroken = v.isBroken
    ∧ (recover_next_station v).state = v.state := by
  unfold recover_next_station
  split_ifs with h
  · rcases hfind : findDifferingStation v.routeStations v.currentPosition 0 with
      _ | ⟨st, idx⟩ <;> simp [hfind]
  · simp

/-- C5: the tick update of a BROKEN vehicle changes neither its position
(integer or float), nor its fuel, nor its breakdown kind, and it stays
BROKEN; the periodic health check never re-rolls a broken vehicle; a
`MAINTENANCE_COMPLETED` message carrying a different vehicle id changes
nothing; one carrying the vehicle's own id is the exit from BROKEN
(clearing `is_broken` and the breakdown kind). -/
theorem C5_broken_vehicle_completely_inert (cityStations : List Pos) (v : Vehicle)
    (roll : Bool) (kind : BreakdownKind) (otherId : String)
    (hb : v.isBroken = true ∧ v.state = VState.BROKEN)
    (hother : otherId ≠ v.vehicleId) :
    ((update_vehicle_state cityStations v).currentPosition = v.currentPosition
      ∧ (update_vehicle_state cityStations v).floatX = v.floatX
      ∧ (update_vehicle_state cityStations v).floatY = v.floatY
      ∧ (update_vehicle_state cityStations v).fuelLevel = v.fuelLevel
      ∧ (update_vehicle_state cityStations v).breakdownType = v.breakdownType
      ∧ (update_vehicle_state cityStations v).isBroken = true
      ∧ (update_vehicle_state cityStations v).state = VState.BROKEN)
    ∧ check_vehicle_health roll kind v = v
    ∧ handle_maintenance_completed otherId v = v
    ∧ ((handle_maintenance_completed v.vehicleId v).isBroken = false
        ∧ (handle_maintenance_completed v.vehicleId v).breakdownType = none) := by
  obtain ⟨hbroken, hstate⟩ := hb
  refine ⟨?_, ?_, ?_, ?_⟩
  · simp only [update_vehicle_state]
    set v0 := if v.nextStation.isNone = true then recover_next_station v else v with hv0
    have hf0 : v0.currentPosition = v.currentPosition ∧ v0.floatX = v.floatX
        ∧ v0.floatY = v.floatY ∧ v0.fuelLevel = v.fuelLevel
        ∧ v0.breakdownType = v.breakdownType ∧ v0.isBroken = v.isBroken
        ∧ v0.state = v.state := by
      rw [hv0]
      split_ifs with hc
      · exact recover_next_station_frame v
      · exact ⟨rfl, rfl, rfl, rfl, rfl, rfl, rfl⟩
    obtain ⟨f1, f2, f3, f4, f5, f6, f7⟩ := hf0
    by_cases hns : v0.nextStation.isNone = true
    · rw [if_pos hns]
      exact ⟨f1, f2, f3, f4, f5, f6.trans hbroken, f7.trans hstate⟩
    · rw [if_neg hns]
      rw [if_pos (Or.inl (show v0.isBroken = true from f6.trans hbroken))]
      exact ⟨f1, f2, f3, f4, f5, f6.trans hbroken, f7.trans hstate⟩
  · unfold check_vehicle_health
    rw [if_neg (by simp [hbroken])]
  · unfold handle_maintenance_completed
    rw [if_pos hother]
  · unfold handle_maintenance_completed
    rw [if_neg (by simp)]
    dsimp only
    split_ifs with h1
    · rcases hget : v.routeStations.get? v.currentStationIndex with _ | stationPos
      · simp [hget]
      · simp only [hget]
        split_ifs with h2
        · exact ⟨rfl, rfl⟩
        · exact ⟨rfl, rfl⟩
    · exact ⟨rfl, rfl⟩

/-- A broken tram used to instantiate the BROKEN-frame theorem. -/
def c5Vehicle : Vehicle :=
  { vehicleId := "tram_1", capacity := 40, occupancy := 3,
    passengersOnboard := [("p1", "station_1"), ("p2", "station_1"), ("p3", "station_2")],
    fuelLevel := 55, currentPosition := { x := 4, y := 7 }, floatX := 4, floatY := 7,
    state := VState.BROKEN, isBroken := true, breakdownType := some BreakdownKind.engine,
    maintenanceRequested := true, currentStationId := none,
    nextStation := some { x := 9, y := 7 }, currentStationIndex := 1,
    routeStations := [{ x := 4, y := 7 }, { x := 9, y := 7 }], speedModifier := 1,
    boardingInProgress := false, boardingTicks := 0, currentTick := 120 }

/-- C5 witness: the frame theorem instantiated on a concrete broken tram. -/
theorem C5_broken_vehicle_completely_inert_witness :
    ((update_vehicle_state [] c5Vehicle).currentPosition = c5Vehicle.currentPosition
      ∧ (update_vehicle_state [] c5Vehicle).floatX = c5Vehicle.floatX
      ∧ (update_vehicle_state [] c5Vehicle).floatY = c5Vehicle.floatY
      ∧ (update_vehicle_state [] c5Vehicle).fuelLevel = c5Vehicle.fuelLevel
      ∧ (update_vehicle_state [] c5Vehicle).breakdownType = c5Vehicle.breakdownType
      ∧ (update_vehicle_state [] c5Vehicle).isBroken = true
      ∧ (update_vehicle_state [] c5Vehicle).state = VState.BROKEN)
    ∧ check_vehicle_health true BreakdownKind.tire c5Vehicle = c5Vehicle
    ∧ handle_maintenance_completed "bus_9" c5Vehicle = c5Vehicle
    ∧ ((handle_maintenance_completed c5Vehicle.vehicleId c5Vehicle).isBroken = false
        ∧ (handle_maintenance_completed c5Vehicle.vehicleId c5Vehicle).breakdownType = none) :=
  C5_broken_vehicle_completely_inert [] c5Vehicle true BreakdownKind.tire "bus_9"
    ⟨rfl, rfl⟩ (by decide)

/-- An empty vehicle with plenty of capacity, used to show the effect of a
duplicated `BOARDING_LIST`. -/
def c8Vehicle : Vehicle :=
  { vehicleId := "bus_1", capacity := 10, occupancy := 0, passengersOnboard := [],
    fuelLevel := 100, currentPosition := { x := 0, y := 0 }, floatX := 0, floatY := 0,
    state := VState.AT_STATION, isBroken := false, breakdownType := none,
    maintenanceRequested := false, currentStationId := some "station_0",
    nextStation := some { x := 1, y := 0 }, currentStationIndex := 0,
    routeStations := [{ x := 0, y := 0 }, { x := 1, y := 0 }], speedModifier := 1,
    boardingInProgress := true, boardingTicks := 0, currentTick := 0 }

/-- C8: delivering the same `BOARDING_LIST` twice to a vehicle does keep
the onboard dict duplicate-free and never touches the station queue again,
but `occupancy` is incremented unconditionally on the re-board, so after
the duplicate delivery `occupancy = 2` while exactly one passenger is
onboard — violating the vehicle's own invariant
`occupancy == len(passengers_onboard)` (`VehicleAgent.check_invariants`). -/
theorem C8_duplicate_boarding_list_double_counts_occupancy :
    (handle_boarding_list [("p1", "station_1")] c8Vehicle).occupancy = 1
    ∧ (handle_boarding_list [("p1", "station_1")] c8Vehicle).passengersOnboard =
        [("p1", "station_1")]
    ∧ (handle_boarding_list [("p1", "station_1")]
          (handle_boarding_list [("p1", "station_1")] c8Vehicle)).occupancy = 2
    ∧ (handle_boarding_list [("p1", "station_1")]
          (handle_boarding_list [("p1", "station_1")] c8Vehicle)).passengersOnboard =
        [("p1", "station_1")]
    ∧ (handle_boarding_list [("p1", "station_1")]
          (handle_boarding_list [("p1", "station_1")] c8Vehicle)).occupancy ≠
        ((handle_boarding_list [("p1", "station_1")]
          (handle_boarding_list [("p1", "station_1")] c8Vehicle)).passengersOnboard.length :
          Int) := by
  refine ⟨rfl, rfl, rfl, rfl, by decide⟩

/-- C7: with a current job, a maintenance crew in `en_route` that is not
yet within 0.5 of the job raises `FrozenInstanceError` on the in-place
`Position` mutation (swallowed by the behaviour loop), so it never
advances; within 0.5 it transitions to `repairing` in place — for every
breakdown kind, including `tow`.  The towing sub-mode exists only in the
demo loop, where the towed vehicle's position tracks the crew's position
on every step toward the base, and the repair happens on reaching the
base. -/
theorem C7_crew_en_route_and_demo_towing (c : Crew) (job : CrewJob)
    (baseEntry : Pos) (m : DemoMaint) (dv : DemoVehicle)
    (hc : c.currentJob = some job) (htow : m.towingVehicle = true) :
    (¬ c.currentPosition.distance_to job.position < 1 / 2 →
        crew_update_en_route c = Except.error "FrozenInstanceError")
    ∧ (c.currentPosition.distance_to job.position < 1 / 2 →
        crew_update_en_route c =
          Except.ok { c with currentPosition := job.position,
                             state := CrewState.repairing })
    ∧ (m.position ≠ baseEntry →
        (demo_tow_update baseEntry m dv).2.position =
          (demo_tow_update baseEntry m dv).1.position)
    ∧ (m.position = baseEntry →
        (demo_tow_update baseEntry m dv).2.isBroken = false
        ∧ (demo_tow_update baseEntry m dv).2.breakdownType = none) := by
  refine ⟨?_, ?_, ?_, ?_⟩
  · intro h
    simp only [crew_update_en_route, hc]
    rw [if_neg h]
  · intro h
    simp only [crew_update_en_route, hc]
    rw [if_pos h]
  · intro hne
    unfold demo_tow_update
    rw [if_pos htow, if_pos hne]
  · intro he
    unfold demo_tow_update
    rw [if_pos htow, if_neg (by simp [he])]
    exact ⟨rfl, rfl⟩

/-- The tow job at the failing input: breakdown kind `tow` at `(5, 0)`. -/
def c7Job : CrewJob :=
  { vehicleId := "bus_1", breakdownType := BreakdownKind.tow, position := { x := 5, y := 0 } }

/-- The failing-input crew: `en_route` at `(0, 0)` toward the tow job. -/
def c7Crew : Crew :=
  { crewId := "crew_1", currentPosition := { x := 0, y := 0 },
    state := CrewState.en_route, currentJob := some c7Job }

/-- Demo maintenance agent mid-tow at `(3, 3)`. -/
def c7Maint : DemoMaint := { position := { x := 3, y := 3 }, towingVehicle := true }

/-- The demo vehicle being towed. -/
def c7DemoVehicle : DemoVehicle :=
  { position := { x := 3, y := 3 }, isBroken := true,
    breakdownType := some BreakdownKind.tow }

/-- The demo maintenance base entry point `(10, 0)` scaled to `(0, 0)`
here for the witness. -/
def c7Base : Pos := { x := 0, y := 0 }

/-- C7 witness: at the failing input the crew's tick raises
`FrozenInstanceError`, and in the demo towing branch the towed vehicle's
position equals the crew's new position. -/
theorem C7_crew_en_route_and_demo_towing_witness :
    (¬ c7Crew.currentPosition.distance_to c7Job.position < 1 / 2)
    ∧ crew_update_en_route c7Crew = Except.error "FrozenInstanceError"
    ∧ c7Maint.position ≠ c7Base
    ∧ (demo_tow_update c7Base c7Maint c7DemoVehicle).2.position =
        (demo_tow_update c7Base c7Maint c7DemoVehicle).1.position :=
  have hdist : c7Crew.currentPosition.distance_to c7Job.position = 5 := by
    show Real.sqrt ((((0 : Int) - 5 : Int) : ℝ) ^ 2 + (((0 : Int) - 0 : Int) : ℝ) ^ 2) = 5
    rw [show ((((0 : Int) - 5 : Int) : ℝ) ^ 2 + (((0 : Int) - 0 : Int) : ℝ) ^ 2) = 5 ^ 2 by
      norm_num]
    exact Real.sqrt_sq (by norm_num)
  have hfar : ¬ c7Crew.currentPosition.distance_to c7Job.position < 1 / 2 := by
    rw [hdist]; norm_num
  ⟨hfar,
    (C7_crew_en_route_and_demo_towing c7Crew c7Job c7Base c7Maint c7DemoVehicle rfl rfl).1 hfar,
    by decide,
    (C7_crew_en_route_and_demo_towing c7Crew c7Job c7Base c7Maint c7DemoVehicle rfl
      rfl).2.2.1 (by decide)⟩

end Sistemas
